import Mathlib

/-!
Verification of the mutation-testing core of the `llm_testgen` repository
against its natural-language specification.

The Lean definitions below are shallow embeddings of the Python source in
`llm_testgen/mutants_validation/`:

* `calcClassify`, `calculate_mutation_score` embed
  `MutationScoreCalculator.calculate_mutation_score`
  (`mutation_score_calculator.py`, lines 59-107);
* `detectorClassify` embeds the per-row bucketing of
  `SurvivedMutantDetector.parse_mutation_results`
  (`survived_mutant_detector.py`, lines 97-108);
* `test_single_mutant` embeds `MutantTester.test_single_mutant`
  (`mutant_tester.py`, lines 59-217);
* `separate_mutants` and `get_mutant_files` embed the corresponding methods
  of `MutantGenerator` (`mutant_generator.py`);
* `test_against_mutants` and `killerWorkflowMerges` embed
  `SurvivorKillerIntegrated._test_against_mutants` and the merge gate of
  `analyze_and_kill_survivors` (`survivor_killer_integrated.py`).

Machine integers are modelled as `Int` (Python integers are unbounded), test
counts read back from pytest summaries as parsed integers, and fallible
operations (Python exceptions) as `Option`.
-/

namespace LlmTestgen

/-- The three mutation-outcome buckets used by both the score calculator and
the survived-mutant detector. -/
inductive Classification where
  | killed
  | survived
  | problematic
deriving DecidableEq, Repr

/-- One row of the mutation results CSV
(`file_name,file_type,status,num_tests,num_pass,num_fail,execution_time,error_msg`),
as consumed by `calculate_mutation_score`. -/
structure TestResult where
  file_name : String
  file_type : String
  status : String
  num_tests : Int
  num_pass : Int
  num_fail : Int
  execution_time : String
  error_msg : String
deriving DecidableEq, Repr

/-- The per-row classification rule of
`MutationScoreCalculator.calculate_mutation_score`
(`mutation_score_calculator.py`, lines 80-89):
`if status == "PASS" and num_tests > 0: surviving`,
`elif status == "FAIL": (problematic if num_tests == 0 else killed)`,
`else: problematic`. -/
def calcClassify (status : String) (num_tests : Int) : Classification :=
  if status = "PASS" ∧ num_tests > 0 then .survived
  else if status = "FAIL" then
    if num_tests = 0 then .problematic else .killed
  else .problematic

/-- The per-row bucketing of `SurvivedMutantDetector.parse_mutation_results`
(`survived_mutant_detector.py`, lines 97-108):
`if status == 'PASS' and num_tests > 0: survived`,
`elif status == 'FAIL' and num_tests > 0: killed`, `else: problematic`. -/
def detectorClassify (status : String) (num_tests : Int) : Classification :=
  if status = "PASS" ∧ num_tests > 0 then .survived
  else if status = "FAIL" ∧ num_tests > 0 then .killed
  else .problematic

/-- The dictionary returned by `calculate_mutation_score`
(`mutation_score_calculator.py`, lines 91-107). -/
structure MutationStats where
  total_mutants : Nat
  killed_mutants : Nat
  surviving_mutants : Nat
  problematic_mutants : Nat
  valid_mutants : Nat
  mutation_score : Rat
deriving Repr

/-- Whether the loop of `calculate_mutation_score` counts row `r` in bucket
`c`: rows with `file_type == "original"` are skipped (`continue`), every other
row increments exactly the counter chosen by `calcClassify`. -/
def isCountedAs (c : Classification) (r : TestResult) : Bool :=
  decide (r.file_type ≠ "original" ∧ calcClassify r.status r.num_tests = c)

/-- `MutationScoreCalculator.calculate_mutation_score`
(`mutation_score_calculator.py`, lines 59-107).  The Python loop increments
one of three counters per non-original row; since `calcClassify` assigns each
row exactly one bucket, the counters equal the three filtered lengths below.
`total = killed + surviving + problematic`,
`valid = total - problematic`, and
`score = killed / valid * 100 if valid > 0 else 0` (true division, embedded
as `Rat`). -/
def calculate_mutation_score (test_results : List TestResult) : MutationStats :=
  let killed := (test_results.filter (isCountedAs .killed)).length
  let surviving := (test_results.filter (isCountedAs .survived)).length
  let problematic := (test_results.filter (isCountedAs .problematic)).length
  let total := killed + surviving + problematic
  let valid := total - problematic
  let score : Rat := if valid > 0 then (killed : Rat) / (valid : Rat) * 100 else 0
  ⟨total, killed, surviving, problematic, valid, score⟩

/-- C1: the calculator's mutant classification follows the spec table and is a
pure function of `(status, num_tests)`: `PASS` with positive test count is
SURVIVED, `FAIL` with positive test count is KILLED, `FAIL` with zero tests is
PROBLEMATIC, `TIMEOUT` and `ERROR` are PROBLEMATIC, and identical inputs yield
the identical classification. -/
theorem c1_calcClassify_table (status : String) (n : Int) :
    (status = "PASS" → n > 0 → calcClassify status n = .survived)
    ∧ (status = "FAIL" → n > 0 → calcClassify status n = .killed)
    ∧ (status = "FAIL" → n = 0 → calcClassify status n = .problematic)
    ∧ (status = "TIMEOUT" ∨ status = "ERROR" → calcClassify status n = .problematic)
    ∧ (∀ status2 n2, status2 = status → n2 = n →
        calcClassify status2 n2 = calcClassify status n) := by
  refine ⟨?_, ?_, ?_, ?_, ?_⟩
  · rintro rfl h
    simp [calcClassify, h]
  · rintro rfl h
    simp [calcClassify, h.ne', h.le]
  · rintro rfl rfl
    simp [calcClassify]
  · rintro (rfl | rfl) <;> simp [calcClassify]
  · rintro s2 n2 rfl rfl
    rfl

/-- Witness for C1: the table evaluated at concrete rows, each clause of
`c1_calcClassify_table` applied with its hypotheses discharged. -/
theorem c1_calcClassify_table_witness :
    calcClassify "PASS" 3 = .survived
    ∧ calcClassify "FAIL" 2 = .killed
    ∧ calcClassify "FAIL" 0 = .problematic
    ∧ calcClassify "TIMEOUT" 0 = .problematic
    ∧ calcClassify "ERROR" 0 = .problematic :=
  ⟨(c1_calcClassify_table "PASS" 3).1 rfl (by decide),
   (c1_calcClassify_table "FAIL" 2).2.1 rfl (by decide),
   (c1_calcClassify_table "FAIL" 0).2.2.1 rfl rfl,
   (c1_calcClassify_table "TIMEOUT" 0).2.2.2.1 (Or.inl rfl),
   (c1_calcClassify_table "ERROR" 0).2.2.2.1 (Or.inr rfl)⟩

/-- C2: the aggregate statistics of `calculate_mutation_score` satisfy
`valid = killed + surviving`, `score = killed / valid * 100` when `valid > 0`,
`score = 0` when `valid = 0` (no division error), and `score ∈ [0, 100]`. -/
theorem c2_score_formula (rs : List TestResult) :
    (calculate_mutation_score rs).valid_mutants
      = (calculate_mutation_score rs).killed_mutants
        + (calculate_mutation_score rs).surviving_mutants
    ∧ ((calculate_mutation_score rs).valid_mutants > 0 →
        (calculate_mutation_score rs).mutation_score
          = ((calculate_mutation_score rs).killed_mutants : Rat)
            / ((calculate_mutation_score rs).valid_mutants : Rat) * 100)
    ∧ ((calculate_mutation_score rs).valid_mutants = 0 →
        (calculate_mutation_score rs).mutation_score = 0)
    ∧ 0 ≤ (calculate_mutation_score rs).mutation_score
    ∧ (calculate_mutation_score rs).mutation_score ≤ 100 := by
  simp only [calculate_mutation_score]
  set k := (rs.filter (isCountedAs .killed)).length with hk
  set s := (rs.filter (isCountedAs .survived)).length with hs
  set p := (rs.filter (isCountedAs .problematic)).length with hp
  have hval : k + s + p - p = k + s := by omega
  simp only [hval]
  refine ⟨trivial, ?_, ?_, ?_, ?_⟩
  · intro hpos
    rw [if_pos hpos]
  · intro hzero
    rw [if_neg (by omega)]
  · rcases Nat.eq_zero_or_pos (k + s) with h0 | hpos
    · rw [if_neg (by omega)]
    · rw [if_pos hpos]
      positivity
  · rcases Nat.eq_zero_or_pos (k + s) with h0 | hpos
    · rw [if_neg (by omega)]
      norm_num
    · rw [if_pos hpos]
      have hkv : (k : Rat) ≤ ((k + s : Nat) : Rat) := by
        exact_mod_cast Nat.le_add_right k s
      have hvpos : (0 : Rat) < ((k + s : Nat) : Rat) := by
        exact_mod_cast hpos
      calc (k : Rat) / ((k + s : Nat) : Rat) * 100
          ≤ 1 * 100 := by
            apply mul_le_mul_of_nonneg_right _ (by norm_num)
            exact (div_le_one hvpos).mpr hkv
        _ = 100 := by norm_num

/-- A concrete killed-mutant row used to instantiate the scoring theorems. -/
def killedRow : TestResult :=
  ⟨"mutant_sample_0.py", "mutant", "FAIL", 2, 1, 1, "0.1s", ""⟩

/-- A concrete survived-mutant row used to instantiate the scoring theorems. -/
def survivedRow : TestResult :=
  ⟨"mutant_sample_1.py", "mutant", "PASS", 2, 2, 0, "0.1s", ""⟩

/-- A concrete `PASS`-with-zero-tests row used to instantiate C10. -/
def passZeroRow : TestResult :=
  ⟨"mutant_sample_2.py", "mutant", "PASS", 0, 0, 0, "0.1s", ""⟩

/-- Witness for C2: `c2_score_formula` applied to a two-row list (one killed,
one survived, so `valid = 2 > 0`) and to the empty list (`valid = 0`). -/
theorem c2_score_formula_witness :
    ((calculate_mutation_score [killedRow, survivedRow]).mutation_score
      = ((calculate_mutation_score [killedRow, survivedRow]).killed_mutants : Rat)
        / ((calculate_mutation_score [killedRow, survivedRow]).valid_mutants : Rat) * 100)
    ∧ (calculate_mutation_score []).mutation_score = 0 :=
  ⟨(c2_score_formula [killedRow, survivedRow]).2.1 (by decide),
   (c2_score_formula []).2.2.1 (by decide)⟩

/-- C4: on every `(status, num_tests)` pair that can appear in a persisted
results row (the tester always records `num_tests = num_pass + num_fail` or
`0`, hence a natural number), the detector's bucketing agrees with the
calculator's classification. -/
theorem c4_detector_matches_calculator (status : String) (n : Nat) :
    detectorClassify status (n : Int) = calcClassify status (n : Int) := by
  unfold detectorClassify calcClassify
  rcases Nat.eq_zero_or_pos n with rfl | hpos
  · simp
  · have h1 : (0 : Int) < (n : Int) := by exact_mod_cast hpos
    have h2 : (n : Int) ≠ 0 := ne_of_gt h1
    simp [h1, h2]

/-- C10: a mutant row with status `PASS` and `num_tests = 0` falls through to
the `else` branch in both implementations and is classified PROBLEMATIC, never
SURVIVED; appending such a row to a results list changes neither the survived
count nor the valid-mutant denominator of the score. -/
theorem c10_pass_zero_problematic (r : TestResult) (rs : List TestResult)
    (hst : r.status = "PASS") (hn : r.num_tests = 0) :
    calcClassify r.status r.num_tests = .problematic
    ∧ detectorClassify r.status r.num_tests = .problematic
    ∧ (calculate_mutation_score (rs ++ [r])).surviving_mutants
        = (calculate_mutation_score rs).surviving_mutants
    ∧ (calculate_mutation_score (rs ++ [r])).valid_mutants
        = (calculate_mutation_score rs).valid_mutants := by
  have hc : calcClassify r.status r.num_tests = .problematic := by
    rw [hst, hn]; rfl
  have hd : detectorClassify r.status r.num_tests = .problematic := by
    rw [hst, hn]; rfl
  have hks : isCountedAs .killed r = false := by
    simp [isCountedAs, hc]
  have hss : isCountedAs .survived r = false := by
    simp [isCountedAs, hc]
  refine ⟨hc, hd, ?_, ?_⟩
  · simp [calculate_mutation_score, List.filter_append, hss]
  · simp only [calculate_mutation_score, List.filter_append, List.length_append]
    simp [hss, hks]

/-- Witness for C10: `c10_pass_zero_problematic` applied to the concrete
`PASS`/zero-tests row appended after a killed and a survived row. -/
theorem c10_pass_zero_problematic_witness :
    (calculate_mutation_score ([killedRow, survivedRow] ++ [passZeroRow])).surviving_mutants
      = (calculate_mutation_score [killedRow, survivedRow]).surviving_mutants
    ∧ (calculate_mutation_score ([killedRow, survivedRow] ++ [passZeroRow])).valid_mutants
      = (calculate_mutation_score [killedRow, survivedRow]).valid_mutants :=
  ⟨(c10_pass_zero_problematic passZeroRow [killedRow, survivedRow] rfl rfl).2.2.1,
   (c10_pass_zero_problematic passZeroRow [killedRow, survivedRow] rfl rfl).2.2.2⟩

/-- `pat` is a leading segment of `s` (helper for the Python `in` operator). -/
def charsPrefixOf : List Char → List Char → Bool
  | [], _ => true
  | _ :: _, [] => false
  | a :: as, b :: bs => a == b && charsPrefixOf as bs

/-- `pat` occurs contiguously in `s` (helper for the Python `in` operator). -/
def charsContains (pat : List Char) : List Char → Bool
  | [] => charsPrefixOf pat []
  | c :: rest => charsPrefixOf pat (c :: rest) || charsContains pat rest

/-- Python's substring test `pat in s`. -/
def strContainsSub (s pat : String) : Bool :=
  charsContains pat.data s.data

/-- Splits a character list at every separator character, keeping empty
pieces, like Python `str.split(sep)`. -/
def splitCharsOn (p : Char → Bool) : List Char → List (List Char)
  | [] => [[]]
  | c :: rest =>
    match splitCharsOn p rest with
    | [] => if p c then [[], []] else [[c]]
    | w :: ws => if p c then [] :: w :: ws else (c :: w) :: ws

/-- Strips whitespace from both ends of a character list. -/
def trimChars (cs : List Char) : List Char :=
  ((cs.dropWhile Char.isWhitespace).reverse.dropWhile Char.isWhitespace).reverse

/-- Reads a run of decimal digits as a number; `none` on any non-digit. -/
def charsToNat (acc : Nat) : List Char → Option Nat
  | [] => some acc
  | c :: rest => if c.isDigit then charsToNat (acc * 10 + (c.toNat - 48)) rest else none

/-- Model of Python `int(str)`: a decimal literal with optional sign and
surrounding whitespace; `none` models the `ValueError` it raises otherwise. -/
def pyInt (s : String) : Option Int :=
  match trimChars s.data with
  | [] => none
  | '-' :: ds =>
    match ds, charsToNat 0 ds with
    | _ :: _, some n => some (-(n : Int))
    | _, _ => none
  | '+' :: ds =>
    match ds, charsToNat 0 ds with
    | _ :: _, some n => some ((n : Int))
    | _, _ => none
  | ds => (charsToNat 0 ds).map (fun n => (n : Int))

/-- Python `stdout.split(newline)`: split at every newline, keeping empty
lines. -/
def pySplitLines (s : String) : List String :=
  (splitCharsOn (fun c => c = '\n') s.data).map List.asString

/-- Python `str.split()` with no argument: split on whitespace runs, dropping
empty tokens. -/
def pySplitWs (s : String) : List String :=
  ((splitCharsOn Char.isWhitespace s.data).map List.asString).filter (fun t => t != "")

/-- The inner token scan of `test_single_mutant` for a combined summary line
(`"X failed, Y passed in Zs"`, `mutant_tester.py` lines 154-161): every token
equal to `"failed,"` (resp. `"passed"`) with a predecessor overwrites
`num_fail` (resp. `num_pass`) with `int(previous token)`.  The accumulator is
`(num_pass, num_fail)`; `none` models `int()` raising. -/
def scanCombined (prev : String) (acc : Int × Int) : List String → Option (Int × Int)
  | [] => some acc
  | t :: rest =>
    if t = "failed," then
      match pyInt prev with
      | some v => scanCombined t (acc.1, v) rest
      | none => none
    else if t = "passed" then
      match pyInt prev with
      | some v => scanCombined t (v, acc.2) rest
      | none => none
    else scanCombined t acc rest

/-- Token scan for a `"X passed in Zs"` summary line
(`mutant_tester.py` lines 162-167). -/
def scanPassed (prev : String) (acc : Int × Int) : List String → Option (Int × Int)
  | [] => some acc
  | t :: rest =>
    if t = "passed" then
      match pyInt prev with
      | some v => scanPassed t (v, acc.2) rest
      | none => none
    else scanPassed t acc rest

/-- Token scan for a `"X failed in Zs"` summary line
(`mutant_tester.py` lines 168-173). -/
def scanFailed (prev : String) (acc : Int × Int) : List String → Option (Int × Int)
  | [] => some acc
  | t :: rest =>
    if t = "failed" then
      match pyInt prev with
      | some v => scanFailed t (acc.1, v) rest
      | none => none
    else scanFailed t acc rest

/-- Runs a token scan over `parts`, skipping the index-0 token as updater
(the Python conditions all require `i > 0`). -/
def scanFrom (f : String → Int × Int → List String → Option (Int × Int))
    (parts : List String) (acc : Int × Int) : Option (Int × Int) :=
  match parts with
  | [] => some acc
  | t0 :: rest => f t0 acc rest

/-- The per-line `if/elif/elif` dispatch of the pytest-summary parsing loop
(`mutant_tester.py` lines 153-173). -/
def parseSummaryLine (acc : Int × Int) (line : String) : Option (Int × Int) :=
  if strContainsSub line " passed"
      && (strContainsSub line "failed" || strContainsSub line "error") then
    scanFrom scanCombined (pySplitWs line) acc
  else if strContainsSub line " passed in " then
    scanFrom scanPassed (pySplitWs line) acc
  else if strContainsSub line " failed in " then
    scanFrom scanFailed (pySplitWs line) acc
  else
    some acc

/-- The whole `for line in stdout.split('\x0a')` parsing loop of
`test_single_mutant`, starting from `num_pass = num_fail = 0`; returns
`(num_pass, num_fail)`, with `none` modelling an `int()` exception (which the
surrounding `except Exception` turns into an ERROR outcome). -/
def parsePytestCounts (stdout : String) : Option (Int × Int) :=
  (pySplitLines stdout).foldlM parseSummaryLine (0, 0)

/-- The 6-tuple `(status, num_tests, num_pass, num_fail, execution_time,
error_msg)` returned by `MutantTester.test_single_mutant`. -/
structure TestOutcome where
  status : String
  num_tests : Int
  num_pass : Int
  num_fail : Int
  execution_time : String
  error_msg : String
deriving DecidableEq, Repr

/-- How the body of the `try` block of `test_single_mutant` resolves for a
given input: the pytest subprocess completes with a return code and captured
stdout; the 30-second wall clock expires (`subprocess.TimeoutExpired`); or
some other exception is raised before or after the subprocess call (file I/O
errors and the like).  An `int()` failure while parsing a completed run's
stdout is modelled separately, inside `parsePytestCounts`. -/
inductive SubprocessBehavior where
  | completed (returncode : Int) (stdout : String)
  | timedOut
  | raised (msg : String)

/-- `MutantTester.test_single_mutant` (`mutant_tester.py`, lines 59-217),
abstracted over how the environment resolves the `try` body.  The second
component records that the `finally` cleanup block (scratch source/test file
removal and cache-directory removal) ran; in the source it is a `finally`
clause, so it runs on every exit path.  `execTime` stands for the formatted
wall-clock string `f"{execution_time:.2f}s"` of a completed run. -/
def test_single_mutant (env : SubprocessBehavior) (execTime : String) :
    TestOutcome × Bool :=
  let body : TestOutcome :=
    match env with
    | .completed rc out =>
      match parsePytestCounts out with
      | some (np, nf) =>
        ⟨if rc = 0 then "PASS" else "FAIL", np + nf, np, nf, execTime, ""⟩
      | none => ⟨"ERROR", 0, 0, 1, "0.0s", "invalid literal for int()"⟩
    | .timedOut => ⟨"TIMEOUT", 0, 0, 1, "30.0s", "Timeout"⟩
    | .raised msg => ⟨"ERROR", 0, 0, 1, "0.0s", msg⟩
  (body, true)

/-- C3: when the subprocess completes and the summary parse succeeds, the
status is `PASS` iff the return code is `0` and `FAIL` for every nonzero
return code (independent of the parsed counts); a timeout yields status
`TIMEOUT` with `num_tests = 0` and `num_fail = 1`; any other exception yields
status `ERROR`. -/
theorem c3_status_mapping (rc : Int) (out : String) (np nf : Int) (t : String)
    (hparse : parsePytestCounts out = some (np, nf)) :
    ((test_single_mutant (.completed rc out) t).1.status = "PASS" ↔ rc = 0)
    ∧ (rc ≠ 0 → (test_single_mutant (.completed rc out) t).1.status = "FAIL")
    ∧ (test_single_mutant .timedOut t).1.status = "TIMEOUT"
    ∧ (test_single_mutant .timedOut t).1.num_tests = 0
    ∧ (test_single_mutant .timedOut t).1.num_fail = 1
    ∧ (∀ msg, (test_single_mutant (.raised msg) t).1.status = "ERROR") := by
  refine ⟨?_, ?_, rfl, rfl, rfl, fun _ => rfl⟩
  · simp only [test_single_mutant, hparse]
    by_cases hrc : rc = 0 <;> simp [hrc]
  · intro hrc
    simp only [test_single_mutant, hparse]
    simp [hrc]

/-- Witness for C3: `c3_status_mapping` applied to a completed run whose
stdout is the summary line `1 passed in 0.5s`, with return code 0. -/
theorem c3_status_mapping_witness :
    (test_single_mutant (.completed 0 "1 passed in 0.5s") "0.10s").1.status = "PASS" :=
  ((c3_status_mapping 0 "1 passed in 0.5s" 1 0 "0.10s" (by rfl)).1).mpr rfl

/-- C5: `test_single_mutant` is a total function of its environment — it never
propagates an exception — and always returns a tuple whose status is one of
`PASS`, `FAIL`, `TIMEOUT`, `ERROR`; whenever the status is `PASS` or `FAIL`
(the non-exception path) `num_tests = num_pass + num_fail`; and the `finally`
cleanup runs on every exit path, including timeout and exception. -/
theorem c5_total_outcome (env : SubprocessBehavior) (t : String) :
    ((test_single_mutant env t).1.status = "PASS"
      ∨ (test_single_mutant env t).1.status = "FAIL"
      ∨ (test_single_mutant env t).1.status = "TIMEOUT"
      ∨ (test_single_mutant env t).1.status = "ERROR")
    ∧ ((test_single_mutant env t).1.status = "PASS"
        ∨ (test_single_mutant env t).1.status = "FAIL" →
       (test_single_mutant env t).1.num_tests
         = (test_single_mutant env t).1.num_pass + (test_single_mutant env t).1.num_fail)
    ∧ (test_single_mutant env t).2 = true := by
  rcases env with ⟨rc, out⟩ | _ | msg
  · rcases hp : parsePytestCounts out with _ | ⟨np, nf⟩
    · simp [test_single_mutant, hp]
    · by_cases hrc : rc = 0 <;> simp [test_single_mutant, hp, hrc]
  · simp [test_single_mutant]
  · simp [test_single_mutant]

/-- Witness for C5: `c5_total_outcome` on a completed passing run, discharging
the `PASS`-status hypothesis of the count identity. -/
theorem c5_total_outcome_witness :
    (test_single_mutant (.completed 0 "1 passed in 0.5s") "0.10s").1.num_tests
      = (test_single_mutant (.completed 0 "1 passed in 0.5s") "0.10s").1.num_pass
        + (test_single_mutant (.completed 0 "1 passed in 0.5s") "0.10s").1.num_fail :=
  (c5_total_outcome (.completed 0 "1 passed in 0.5s") "0.10s").2.1 (Or.inl (by rfl))

/-- Lexicographic strict comparison of character lists by code point —
Python's `str.__lt__`, which drives `sorted()`. -/
def charsLt : List Char → List Char → Bool
  | [], [] => false
  | [], _ :: _ => true
  | _ :: _, [] => false
  | a :: as, b :: bs => if a < b then true else if b < a then false else charsLt as bs

/-- Python string comparison `a < b`. -/
def pyStrLt (a b : String) : Bool := charsLt a.data b.data

theorem charsLt_asymm : ∀ x y, charsLt x y = true → charsLt y x = false
  | [], [] => by simp [charsLt]
  | [], _ :: _ => by simp [charsLt]
  | _ :: _, [] => by simp [charsLt]
  | a :: as, b :: bs => by
    simp only [charsLt]
    intro h
    by_cases hab : a < b
    · rw [if_neg (asymm hab), if_pos hab]
    · rw [if_neg hab] at h
      by_cases hba : b < a
      · rw [if_pos hba] at h
        exact absurd h (by simp)
      · rw [if_neg hba] at h
        rw [if_neg hba, if_neg hab]
        exact charsLt_asymm as bs h

theorem charsLt_antisymm : ∀ x y, charsLt x y = false → charsLt y x = false → x = y
  | [], [] => fun _ _ => rfl
  | [], _ :: _ => by simp [charsLt]
  | _ :: _, [] => by simp [charsLt]
  | a :: as, b :: bs => by
    simp only [charsLt]
    intro h1 h2
    by_cases hab : a < b
    · rw [if_pos hab] at h1
      exact absurd h1 (by simp)
    · by_cases hba : b < a
      · rw [if_pos hba] at h2
        exact absurd h2 (by simp)
      · rw [if_neg hab, if_neg hba] at h1
        rw [if_neg hba, if_neg hab] at h2
        have hchar : a = b := le_antisymm (not_lt.mp hba) (not_lt.mp hab)
        rw [hchar, charsLt_antisymm as bs h1 h2]

theorem charsLt_cotrans : ∀ x z y, charsLt x z = true →
    charsLt x y = true ∨ charsLt y z = true
  | [], [], _ => by simp [charsLt]
  | _ :: _, [], _ => by simp [charsLt]
  | [], _ :: _, [] => by simp [charsLt]
  | [], _ :: _, _ :: _ => by simp [charsLt]
  | a :: as, c :: cs, [] => by simp [charsLt]
  | a :: as, c :: cs, b :: bs => by
    simp only [charsLt]
    intro h
    by_cases hab : a < b
    · exact Or.inl (by rw [if_pos hab])
    · by_cases hbc : b < c
      · exact Or.inr (by rw [if_pos hbc])
      · have hba : ¬ b < a := by
          intro hba
          by_cases hac : a < c
          · exact hbc (lt_of_lt_of_le hba (le_of_lt hac))
          · rw [if_neg hac] at h
            by_cases hca : c < a
            · rw [if_pos hca] at h
              exact absurd h (by simp)
            · exact hbc (lt_of_lt_of_le hba (not_lt.mp hca))
        have hboth : a = b := le_antisymm (not_lt.mp hba) (not_lt.mp hab)
        subst hboth
        by_cases hac : a < c
        · exact Or.inr (by rw [if_pos hac])
        · rw [if_neg hac] at h
          by_cases hca : c < a
          · rw [if_pos hca] at h
            exact absurd h (by simp)
          · rw [if_neg hca] at h
            rcases charsLt_cotrans as cs bs h with h1 | h1
            · exact Or.inl (by rw [if_neg hab, if_neg hba]; exact h1)
            · exact Or.inr (by rw [if_neg hac, if_neg hca]; exact h1)

theorem charsLt_append_left : ∀ (p x y : List Char), charsLt (p ++ x) (p ++ y) = charsLt x y
  | [], _, _ => rfl
  | c :: cs, x, y => by
    simp only [List.cons_append, charsLt, if_neg (lt_irrefl c)]
    exact charsLt_append_left cs x y

instance : IsTotal String (fun a b => pyStrLt b a = false) := by
  constructor
  intro a b
  rcases h : pyStrLt b a with _ | _
  · exact Or.inl rfl
  · exact Or.inr (charsLt_asymm _ _ h)

instance : IsTrans String (fun a b => pyStrLt b a = false) := by
  constructor
  intro a b c h1 h2
  simp only [pyStrLt] at h1 h2 ⊢
  rcases h : charsLt c.data a.data with _ | _
  · rfl
  · rcases charsLt_cotrans c.data a.data b.data h with h3 | h3
    · rw [h2] at h3
      exact absurd h3 (by simp)
    · rw [h1] at h3
      exact absurd h3 (by simp)

instance : IsAntisymm String (fun a b => pyStrLt b a = false) := by
  constructor
  intro a b h1 h2
  have hdata := charsLt_antisymm a.data b.data h2 h1
  cases a
  cases b
  exact congrArg String.mk hdata

/-- The deterministic mutant file name `mutant_<module_name>_<k>.py` built by
`separate_mutants` (`mutant_generator.py`, line 146). -/
def mutantFileName (module_name : String) (k : Nat) : String :=
  "mutant_" ++ module_name ++ "_" ++ toString k ++ ".py"

/-- `MutantGenerator.get_mutant_files` (`mutant_generator.py`, lines 166-171):
`sorted(mutants_dir.glob("mutant_<module>_*.py"))`.  The glob result (whose
order the OS does not specify) is the input; Python's `sorted` on paths in one
directory orders them lexicographically by filename, modelled by the
code-point comparison `pyStrLt`. -/
def get_mutant_files (globResult : List String) : List String :=
  List.insertionSort (fun a b => pyStrLt b a = false) globResult

/-- Python `str.lstrip(' ')`: strip leading space characters only. -/
def lstripSpaces (s : String) : String :=
  (s.data.dropWhile (fun c => c = ' ')).asString

/-- Python `str.startswith(p)`. -/
def pyStartsWith (s p : String) : Bool :=
  charsPrefixOf p.data s.data

/-- Python `str.split(sep)` for a one-character separator, keeping empty
pieces. -/
def pySplitColon (s : String) : List String :=
  (splitCharsOn (fun c => c = ':') s.data).map List.asString

/-- Python `s[n:]`. -/
def pyDropChars (s : String) (n : Nat) : String :=
  (s.data.drop n).asString

/-- Python `xs[i] = v` on a copied list: negative indices wrap from the end,
out-of-range indices raise `IndexError` (modelled as `none`). -/
def pySetItem (xs : List String) (i : Int) (v : String) : Option (List String) :=
  let j : Int := if i < 0 then i + (xs.length : Int) else i
  if 0 ≤ j ∧ j < (xs.length : Int) then some (xs.set j.toNat v) else none

/-- The mutable loop state of `MutantGenerator.separate_mutants`
(`mutant_generator.py`, lines 101-160): the mutant counter, the mutation-type
label in effect, and the files / CSV rows emitted so far (each file is its
list of lines, written in order). -/
structure MutGenState where
  mutant_count : Nat
  mut_type : String
  files : List (String × List String)
  csvRows : List (String × String)
deriving DecidableEq, Repr

/-- One iteration of the `for ln in f` loop of `separate_mutants`
(`mutant_generator.py`, lines 126-157): `ln = ln.lstrip(' ')`; a line starting
`"- [#"` updates `mut_type` from its 4th whitespace token when present; a line
starting `"+"` parses `int` of the text between `"+"` and the first `":"`,
replaces line `int(ln_num) - 1` of a copy of the original source with `ln[6:]`,
emits the mutant file `mutant_<module>_<count>.py` and a CSV row
`(name, mut_type)`, and increments the counter.  `none` models an exception
(`int()` failing or the list index being out of range), which makes
`separate_mutants` return `False`. -/
def processLine (module_name : String) (org_data : List String)
    (st : MutGenState) (rawLine : String) : Option MutGenState :=
  let ln := lstripSpaces rawLine
  let st1 :=
    if pyStartsWith ln "- [#" then
      let ln_mut := pySplitWs ln
      if ln_mut.length > 3 then { st with mut_type := ln_mut.getD 3 "" } else st
    else st
  if pyStartsWith ln "+" then
    let ln_num := lstripSpaces (pyDropChars ((pySplitColon ln).headD "") 1)
    let ln_content := pyDropChars ln 6
    match pyInt ln_num with
    | none => none
    | some n =>
      match pySetItem org_data (n - 1) ln_content with
      | none => none
      | some temp =>
        some { st1 with
          mutant_count := st1.mutant_count + 1,
          files := st1.files
            ++ [(mutantFileName module_name st1.mutant_count, temp)],
          csvRows := st1.csvRows
            ++ [(mutantFileName module_name st1.mutant_count, st1.mut_type)] }
  else
    some st1

/-- `MutantGenerator.separate_mutants` (`mutant_generator.py`, lines 101-164)
on an already-read original source (`org_data`, the `readlines()` result) and
mutation report (`report`, the lines of `mutants_all_<module>.txt`), starting
from `mutant_count = 0` and `mut_type = "unknown"`.  `none` models the
`except` branch returning `False`. -/
def separate_mutants (module_name : String) (org_data : List String)
    (report : List String) : Option MutGenState :=
  report.foldlM (processLine module_name org_data) ⟨0, "unknown", [], []⟩

theorem pyStartsWith_plus_head (ln : String) (h : pyStartsWith ln "+" = true) :
    ∃ cs, ln.data = '+' :: cs := by
  have h' : charsPrefixOf ['+'] ln.data = true := h
  rcases hd : ln.data with _ | ⟨c, cs⟩ <;> rw [hd] at h'
  · exact absurd h' (by decide)
  · refine ⟨cs, ?_⟩
    simp only [charsPrefixOf, Bool.and_eq_true, beq_iff_eq] at h'
    rw [h'.1]

theorem not_dash_of_plus (ln : String) (h : pyStartsWith ln "+" = true) :
    pyStartsWith ln "- [#" = false := by
  obtain ⟨cs, hd⟩ := pyStartsWith_plus_head ln h
  show charsPrefixOf "- [#".data ln.data = false
  rw [hd, show "- [#".data = ['-', ' ', '[', '#'] from rfl]
  simp [charsPrefixOf]

/-- The bookkeeping invariant of the `separate_mutants` loop: the emitted
files are named `mutant_<module>_<k>.py` for `k = 0, 1, …` in emission order,
the CSV rows name the same files in the same order, and the counter equals
the number of emitted files. -/
def genInvariant (module_name : String) (st : MutGenState) : Prop :=
  st.files.map Prod.fst = (List.range st.mutant_count).map (mutantFileName module_name)
  ∧ st.csvRows.map Prod.fst = st.files.map Prod.fst
  ∧ st.mutant_count = st.files.length

theorem processLine_inv (m : String) (org : List String) (st st' : MutGenState)
    (ln : String) (hinv : genInvariant m st)
    (h : processLine m org st ln = some st') : genInvariant m st' := by
  simp only [processLine] at h
  revert h
  generalize hst1 :
    (if pyStartsWith (lstripSpaces ln) "- [#" then
      if (pySplitWs (lstripSpaces ln)).length > 3 then
        { st with mut_type := (pySplitWs (lstripSpaces ln)).getD 3 "" }
      else st
    else st) = st1
  have hinv1 : genInvariant m st1 := by
    rw [← hst1]
    split
    · split
      · exact hinv
      · exact hinv
    · exact hinv
  intro h
  by_cases hp : pyStartsWith (lstripSpaces ln) "+"
  · rw [if_pos hp] at h
    split at h
    · exact absurd h (by simp)
    · split at h
      · exact absurd h (by simp)
      · obtain ⟨hfiles, hcsv, hcount⟩ := hinv1
        injection h with h
        subst h
        refine ⟨?_, ?_, ?_⟩
        · simp only [List.map_append, hfiles, hcount, List.map_cons, List.map_nil]
          rw [List.range_succ]
          simp
        · simp [List.map_append, hcsv]
        · simp [hcount]
  · rw [if_neg hp] at h
    injection h with h
    subst h
    exact hinv1

theorem separate_foldl_inv (m : String) (org : List String) :
    ∀ (report : List String) (st final : MutGenState),
      genInvariant m st →
      report.foldlM (processLine m org) st = some final →
      genInvariant m final
  | [], st, final, hinv, h => by
    simp only [List.foldlM_nil] at h
    injection h with h
    exact h ▸ hinv
  | ln :: rest, st, final, hinv, h => by
    rw [List.foldlM_cons] at h
    rcases hp : processLine m org st ln with _ | st1 <;> rw [hp] at h
    · exact absurd h (by simp)
    · exact separate_foldl_inv m org rest st1 final
        (processLine_inv m org st st1 ln hinv hp) h

/-- C6 counterexample: on the report line `"+1: x"` (which encodes line
number 1 with replacement text `"x"`) over a two-line original source, the
emitted mutant's first line is the empty string — `ln[6:]` of a 5-character
line — not the encoded replacement text `"x"`.  This refutes the claim that
the replacement line's text after `"<line_number>: "` is substituted
verbatim. -/
theorem c6_counterexample :
    (separate_mutants "sample" ["a\n", "b\n"] ["+1: x"]).map (fun st => st.files)
      = some [("mutant_sample_0.py", ["", "b\n"])]
    ∧ (["", "b\n"] : List String) ≠ ["x", "b\n"] := by
  exact ⟨by decide, by decide⟩

/-- C6 as amended: a replacement line starting `"+"` whose parsed line number
`n` is in range emits exactly one mutant file whose content is the original
source with line `n - 1` (0-indexed) replaced by the characters of the
(lstripped) report line from position 6 onward — which equals the encoded
replacement text exactly when the `"+ <lineno>: "` prefix occupies 6
characters; the file is named `mutant_<module>_<k>.py` where `k` is the
running 0-based counter, and one CSV row `(filename, mut_type)` is appended,
`mut_type` being the 4th whitespace token of the most recent line starting
`"- [#"` (such a line updates only `mut_type`); over a whole report the
emitted file names are the consecutive counters in report order and the CSV
rows mirror them. -/
theorem c6_amended (module_name : String) (org_data : List String) :
    (∀ (st : MutGenState) (ln : String) (n : Int),
      lstripSpaces ln = ln →
      pyStartsWith ln "+" = true →
      pyInt (lstripSpaces (pyDropChars ((pySplitColon ln).headD "") 1)) = some n →
      1 ≤ n → n ≤ (org_data.length : Int) →
      processLine module_name org_data st ln
        = some { st with
            mutant_count := st.mutant_count + 1,
            files := st.files
              ++ [(mutantFileName module_name st.mutant_count,
                   org_data.set (n - 1).toNat (pyDropChars ln 6))],
            csvRows := st.csvRows
              ++ [(mutantFileName module_name st.mutant_count, st.mut_type)] })
    ∧ (∀ (st : MutGenState) (ln : String),
      lstripSpaces ln = ln →
      pyStartsWith ln "- [#" = true →
      pyStartsWith ln "+" = false →
      (pySplitWs ln).length > 3 →
      processLine module_name org_data st ln
        = some { st with mut_type := (pySplitWs ln).getD 3 "" })
    ∧ (∀ (report : List String) (final : MutGenState),
      separate_mutants module_name org_data report = some final →
      final.files.map Prod.fst
          = (List.range final.files.length).map (mutantFileName module_name)
        ∧ final.csvRows.map Prod.fst = final.files.map Prod.fst
        ∧ final.mutant_count = final.files.length) := by
  refine ⟨?_, ?_, ?_⟩
  · intro st ln n hstrip hplus hn h1 h2
    simp only [processLine, hstrip, not_dash_of_plus ln hplus, if_pos hplus,
      Bool.false_eq_true, if_false, hn]
    have hset : pySetItem org_data (n - 1) (pyDropChars ln 6)
        = some (org_data.set (n - 1).toNat (pyDropChars ln 6)) := by
      simp only [pySetItem]
      rw [if_neg (by omega : ¬ n - 1 < 0), if_pos (by omega : 0 ≤ n - 1 ∧ n - 1 < (org_data.length : Int))]
    rw [hset]
  · intro st ln hstrip hdash hnplus hlen
    simp only [processLine, hstrip, hdash, if_pos rfl, hlen, if_pos trivial, hnplus,
      Bool.false_eq_true, if_false]
  · intro report final h
    exact
      have hinv := separate_foldl_inv module_name org_data report ⟨0, "unknown", [], []⟩
        final (by refine ⟨?_, ?_, ?_⟩ <;> rfl) h
      ⟨hinv.2.2 ▸ hinv.1, hinv.2.1, hinv.2.2⟩

/-- Witness for C6's amended theorem: the per-line clause applied to the
concrete line `"+ 2: xy"` (whose prefix before the replacement is only 5
characters, so the emitted line is `"y"`), and the report-order clause applied
to a concrete two-mutant report. -/
theorem c6_amended_witness :
    processLine "sample" ["a\n", "b\n"] ⟨0, "unknown", [], []⟩ "+ 2: xy"
      = some ⟨1, "unknown", [("mutant_sample_0.py", ["a\n", "y"])],
              [("mutant_sample_0.py", "unknown")]⟩
    ∧ ((separate_mutants "sample" ["a\n", "b\n"]
          ["- [# 1] AOR x:", "+ 1: q", "+ 2: r"]).map (fun st => st.files.map Prod.fst)
        = some ["mutant_sample_0.py", "mutant_sample_1.py"]) := by
  constructor
  · have := (c6_amended "sample" ["a\n", "b\n"]).1 ⟨0, "unknown", [], []⟩ "+ 2: xy" 2
      (by decide) (by decide) (by decide) (by decide) (by decide)
    simpa using this
  · have hrun : separate_mutants "sample" ["a\n", "b\n"]
        ["- [# 1] AOR x:", "+ 1: q", "+ 2: r"]
        = some ⟨2, "AOR",
            [("mutant_sample_0.py", ["", "b\n"]), ("mutant_sample_1.py", ["a\n", ""])],
            [("mutant_sample_0.py", "AOR"), ("mutant_sample_1.py", "AOR")]⟩ := by decide
    have hnames := ((c6_amended "sample" ["a\n", "b\n"]).2.2
      ["- [# 1] AOR x:", "+ 1: q", "+ 2: r"] _ hrun).1
    rw [hrun, Option.map_some']
    exact congrArg some (hnames.trans (by decide))

theorem mutantFileName_lt (module_name : String) {k l : Nat}
    (hkl : k < l) (hl : l ≤ 9) :
    pyStrLt (mutantFileName module_name k) (mutantFileName module_name l) = true := by
  have hk : k ≤ 9 := le_trans (Nat.le_of_lt hkl) hl
  unfold pyStrLt mutantFileName
  simp only [String.data_append, List.append_assoc]
  rw [charsLt_append_left, charsLt_append_left, charsLt_append_left]
  interval_cases k <;> interval_cases l <;> decide

/-- C7 counterexample: with eleven mutants (counters 0 through 10, as emitted
by `separate_mutants`), the lexicographic sort performed by
`get_mutant_files` places the counter-10 file at position 2, where the claim
requires the counter-2 file. -/
theorem c7_counterexample :
    (get_mutant_files ((List.range 11).map (mutantFileName "sample"))).get? 2
      = some (mutantFileName "sample" 10)
    ∧ mutantFileName "sample" 10 ≠ mutantFileName "sample" 2 := by
  exact ⟨by decide, by decide⟩

/-- C7 as amended: `get_mutant_files` sorts the globbed mutant filenames
lexicographically; when at most ten mutants exist (all counters single-digit)
this coincides with the generation order, so the file with counter `k` is at
position `k` for every glob enumeration order — but not in general once an
eleventh mutant (counter 10) exists. -/
theorem c7_amended (module_name : String) (N : Nat) (hN : N ≤ 10)
    (globResult : List String)
    (hperm : globResult.Perm ((List.range N).map (mutantFileName module_name))) :
    get_mutant_files globResult = (List.range N).map (mutantFileName module_name) := by
  have hsorted : ((List.range N).map (mutantFileName module_name)).Sorted
      (fun a b => pyStrLt b a = false) := by
    rw [List.Sorted, List.pairwise_map]
    refine (List.pairwise_lt_range N).imp_of_mem ?_
    intro a b _ hb hab
    have hb9 : b ≤ 9 := by
      have := List.mem_range.mp hb
      omega
    exact charsLt_asymm _ _ (mutantFileName_lt module_name hab hb9)
  exact List.eq_of_perm_of_sorted ((List.perm_insertionSort _ _).trans hperm)
    (List.sorted_insertionSort _ _) hsorted

/-- Witness for C7's amended theorem: three mutant files presented by the glob
in scrambled order come back in counter order. -/
theorem c7_amended_witness :
    get_mutant_files ["mutant_sample_2.py", "mutant_sample_0.py", "mutant_sample_1.py"]
      = (List.range 3).map (mutantFileName "sample") :=
  c7_amended "sample" 3 (by decide)
    ["mutant_sample_2.py", "mutant_sample_0.py", "mutant_sample_1.py"] (by decide)

/-- One surviving mutant as processed by
`SurvivorKillerIntegrated._test_against_mutants`
(`survivor_killer_integrated.py`, lines 463-499): its file name, whether its
file exists on disk (`mutant_file.exists()`), its file content, whether the
`try` block raises after the mutant content is swapped in (`read_text`,
`write_text` or `run_tests` throwing), and — when it does not raise — whether
the killer-test run reports success (`mutant_results['success']`). -/
structure MutantCase where
  name : String
  onDisk : Bool
  content : String
  runRaises : Bool
  runSucceeds : Bool
deriving DecidableEq, Repr

/-- The accumulating `results` lists of `_test_against_mutants` (lines
440-443): names of mutants killed by the killer tests and names still
surviving them. -/
structure KillerResults where
  mutants_killed : List String
  mutants_still_surviving : List String
deriving DecidableEq, Repr

/-- One iteration of the `for mutant_name in surviving_mutants` loop of
`_test_against_mutants`.  The `String` component is the live source file's
content.  A missing mutant file is skipped with `continue` (no file
operation).  Otherwise the `try` block overwrites the live source with the
mutant content and runs the killer tests; whether that run raises, passes or
fails, the `finally` clause writes `backup_content` back, so the state leaving
the iteration is `backup` (writes themselves are assumed not to fail).  The
`except` branch records only per-mutant details, so on a raise neither result
list grows. -/
def mutantStep (backup : String) :
    String × KillerResults → MutantCase → String × KillerResults
  | (st, res), m =>
    if m.onDisk then
      let res2 :=
        if m.runRaises then res
        else if m.runSucceeds then
          { res with mutants_still_surviving := res.mutants_still_surviving ++ [m.name] }
        else
          { res with mutants_killed := res.mutants_killed ++ [m.name] }
      (backup, res2)
    else (st, res)

/-- `SurvivorKillerIntegrated._test_against_mutants`
(`survivor_killer_integrated.py`, lines 436-512): reads `backup_content` from
the live source file, then processes each surviving mutant in turn.  Returns
the final live-source content paired with the result lists. -/
def test_against_mutants (initialSource : String) (ms : List MutantCase) :
    String × KillerResults :=
  ms.foldl (mutantStep initialSource) (initialSource, ⟨[], []⟩)

theorem foldl_mutantStep_fst (b : String) :
    ∀ (ms : List MutantCase) (st : String) (res : KillerResults),
      st = b → (ms.foldl (mutantStep b) (st, res)).1 = b
  | [], st, _, h => h
  | m :: rest, st, res, h => by
    rw [List.foldl_cons]
    by_cases hd : m.onDisk
    · simp only [mutantStep, hd, if_true]
      exact foldl_mutantStep_fst b rest b _ rfl
    · simp only [mutantStep, hd, Bool.false_eq_true, if_false]
      exact foldl_mutantStep_fst b rest st res h

/-- C9: `_test_against_mutants` always leaves the live source file with its
pre-call content — after every surviving mutant is processed and on every
exit path of each iteration, including a raise while a mutant's content is
swapped in (handled by the per-iteration `finally` restore) and the skip path
for a missing mutant file (which never touches the file). -/
theorem c9_source_restored (initialSource : String) (ms : List MutantCase) :
    (test_against_mutants initialSource ms).1 = initialSource :=
  foldl_mutantStep_fst initialSource ms initialSource ⟨[], []⟩ rfl

/-- Environment of `_save_and_test_killer_tests`
(`survivor_killer_integrated.py`, lines 308-374): whether saving the killer
test file raises; per-attempt success of `run_tests` on the original source;
per-attempt availability of LLM-repaired code; per-attempt failure of
overwriting the file with it; and the live source content and surviving
mutants handed to `_test_against_mutants` once the tests pass. -/
structure KillerTestEnv where
  saveFails : Bool
  runPasses : Nat → Bool
  repairAvailable : Nat → Bool
  repairSaveFails : Nat → Bool
  initialSource : String
  survivors : List MutantCase

/-- The fields of the `results` dict consulted by the merge gate: `'success'`
from `run_tests`, and the two mutant-name lists contributed by
`_test_against_mutants` (absent keys behave as empty lists under
`dict.get`). -/
structure KillerTestResults where
  success : Bool
  mutants_killed : List String
  mutants_still_surviving : List String
deriving DecidableEq, Repr

/-- The `while attempt <= max_repair_attempts` repair loop of
`_save_and_test_killer_tests` (lines 330-374), `max_repair_attempts = 5`:
if `run_tests` succeeds, run `_test_against_mutants` and return its lists with
`success = True`; once the attempt cap is reached, or no repaired code comes
back, or saving it fails, return the failing `run_tests` result (no mutant
lists).  The fuel argument (7 from the entry point) bounds the recursion; the
loop body runs for `attempt = 0, …, 5` at most. -/
def killerRepairLoop (env : KillerTestEnv) : Nat → Nat → KillerTestResults
  | _, 0 => ⟨false, [], []⟩
  | attempt, fuel + 1 =>
    if env.runPasses attempt then
      let r := (test_against_mutants env.initialSource env.survivors).2
      ⟨true, r.mutants_killed, r.mutants_still_surviving⟩
    else if 5 ≤ attempt then ⟨false, [], []⟩
    else if env.repairAvailable attempt then
      if env.repairSaveFails attempt then ⟨false, [], []⟩
      else killerRepairLoop env (attempt + 1) fuel
    else ⟨false, [], []⟩

/-- `SurvivorKillerIntegrated._save_and_test_killer_tests`
(`survivor_killer_integrated.py`, lines 308-374). -/
def save_and_test_killer_tests (env : KillerTestEnv) : KillerTestResults :=
  if env.saveFails then ⟨false, [], []⟩
  else killerRepairLoop env 0 7

/-- The merge gate of `analyze_and_kill_survivors`
(`survivor_killer_integrated.py`, lines 103-107):
`if test_results.get('success') and test_results.get('mutants_killed'):` —
Python truthiness of the killed-mutant list, i.e. non-emptiness.  `true` means
`_merge_killer_tests_with_existing` is invoked. -/
def killerWorkflowMerges (env : KillerTestEnv) : Bool :=
  let tr := save_and_test_killer_tests env
  tr.success && !tr.mutants_killed.isEmpty

/-- A concrete environment: the killer tests pass on the original source at
attempt 0, kill surviving mutant 0, but surviving mutant 1 still survives
them. -/
def mixedKillEnv : KillerTestEnv :=
  ⟨false, fun _ => true, fun _ => false, fun _ => false, "source",
   [⟨"mutant_m_0.py", true, "c0", false, false⟩,
    ⟨"mutant_m_1.py", true, "c1", false, true⟩]⟩

/-- C8 counterexample: in `mixedKillEnv` one targeted mutant still survives
the killer tests, yet the merge is invoked — refuting the claim that the
merge happens only when the still-surviving set is empty. -/
theorem c8_counterexample :
    killerWorkflowMerges mixedKillEnv = true
    ∧ (save_and_test_killer_tests mixedKillEnv).mutants_still_surviving
        = ["mutant_m_1.py"] := by
  exact ⟨by decide, by decide⟩

/-- C8 as amended: the merge of killer tests into the existing suite is
invoked exactly when the killer tests pass on the original source (within the
bounded repair budget) and they kill at least one targeted mutant; the gate
does not consult whether the still-surviving set is empty, so a merge can
occur while some targeted mutants still survive. -/
theorem c8_amended (env : KillerTestEnv) :
    killerWorkflowMerges env = true
      ↔ ((save_and_test_killer_tests env).success = true
         ∧ (save_and_test_killer_tests env).mutants_killed ≠ []) := by
  unfold killerWorkflowMerges
  rw [Bool.and_eq_true, Bool.not_eq_true']
  rw [List.isEmpty_eq_false_iff_exists_mem]
  constructor
  · rintro ⟨h1, h2⟩
    exact ⟨h1, by rcases h2 with ⟨x, hx⟩; exact List.ne_nil_of_mem hx⟩
  · rintro ⟨h1, h2⟩
    exact ⟨h1, by rcases List.exists_mem_of_ne_nil _ h2 with ⟨x, hx⟩; exact ⟨x, hx⟩⟩

/-- Witness for C8's amended theorem: the gate fires in `mixedKillEnv`,
where the tests passed and the killed list is non-empty. -/
theorem c8_amended_witness : killerWorkflowMerges mixedKillEnv = true :=
  (c8_amended mixedKillEnv).mpr ⟨by decide, by decide⟩

end LlmTestgen
